import Mathlib

/-!
Verification of the MediaGuard core decision logic: the trust/risk
aggregator (`src/modules/trust_aggregator.py`) and the fingerprint
verification engine (`src/modules/verification.py`).

Modelling conventions:
* Python `float` arithmetic is modelled by exact rational arithmetic (`ℚ`).
  IEEE-754 representation error and the display-only `round(x, 1)` applied
  to the returned risk/confidence numbers are not modelled; all claims
  concern the exact values.
* Python dictionaries are modelled as association lists (first binding
  wins), so that the truthiness of an empty dict (falsy, like `None`)
  is represented faithfully.
* A point where the Python code would raise (`TypeError` from comparing or
  formatting a non-numeric value, `ZeroDivisionError`) is modelled by
  `Option`: `none` means the call raises.
-/

/-- A Python value as it appears inside the loosely-typed input dicts:
either a string or a number (modelled as an exact rational). -/
inductive PyVal where
  | str (s : String)
  | num (q : ℚ)
deriving DecidableEq

/-- A Python dict, as an association list (first binding wins). -/
def PyDict := List (String × PyVal)

instance : DecidableEq PyDict := by
  unfold PyDict
  infer_instance

/-- `d.get(k)` with no default: `None` becomes `Option.none`. -/
def pyGet (d : PyDict) (k : String) : Option PyVal :=
  (d.find? (fun kv => kv.1 == k)).map (fun kv => kv.2)

/-- `d.get(k, v)`: lookup with a default. -/
def pyGetD (d : PyDict) (k : String) (v : PyVal) : PyVal :=
  (pyGet d k).getD v

/-- Python numeric coercion at a point where a number is required
(a `<`/`>` comparison with a number, arithmetic, or `"%.1f"` formatting):
a string there makes CPython raise `TypeError`, modelled as `none`. -/
def asNum : PyVal → Option ℚ
  | .num q => some q
  | .str _ => none

/-- Python `==` between a dict value and a string literal: a number never
equals a string. -/
def pyValEqStr : PyVal → String → Bool
  | .str t, s => t == s
  | .num _, _ => false

/-- Truthiness of an optional dict argument: `None` and the empty dict
are falsy, every non-empty dict is truthy. -/
def truthy : Option PyDict → Bool
  | none => false
  | some d => !d.isEmpty

/-- Truthiness of an optional string: `None` and `""` are falsy. -/
def strTruthy : Option String → Bool
  | none => false
  | some s => !(s == "")

/-- Python division, raising `ZeroDivisionError` on a zero denominator
(modelled as `none`). -/
def pyDiv (a b : ℚ) : Option ℚ :=
  if b = 0 then none else some (a / b)

/-- Round half to even on an exact rational (CPython's rounding mode for
`round` and `format`); the binary-float representation error is not
modelled. -/
def roundHalfEven (x : ℚ) : ℤ :=
  let f : ℤ := Int.fdiv x.num x.den
  let r := x - f
  if r < 1/2 then f
  else if 1/2 < r then f + 1
  else if f % 2 = 0 then f else f + 1

/-- Rendering of a number with one decimal digit, as CPython's `"%.1f"`
does on the exact rational value. -/
def fmt1 (q : ℚ) : String :=
  let n := roundHalfEven (q * 10)
  let sign := if n < 0 then "-" else ""
  let m := n.natAbs
  sign ++ toString (m / 10) ++ "." ++ toString (m % 10)

namespace TrustAggregator

/-! ## Trust & Risk Aggregator (src/modules/trust_aggregator.py) -/

/-- `self.weights['image_analysis']` (trust_aggregator.py line 23). -/
def weight_image_analysis : ℚ := 0.4

/-- `self.weights['fake_news']` (trust_aggregator.py line 24). -/
def weight_fake_news : ℚ := 0.4

/-- `self.weights['sensitive_content']` (trust_aggregator.py line 25). -/
def weight_sensitive_content : ℚ := 0.2

/-- The entry stored under `module_results['image']` (lines 77-81):
classification and confidence are stored as the raw dict values. -/
structure ImageModuleResult where
  risk : ℚ
  classification : PyVal
  confidence : PyVal
deriving DecidableEq

/-- The entry stored under `module_results['fake_news']` (lines 101-105). -/
structure FakeNewsModuleResult where
  risk : ℚ
  fake_news_likelihood : ℚ
  credibility_score : PyVal
deriving DecidableEq

/-- The entry stored under `module_results['sensitive']` (lines 117-120). -/
structure SensitiveModuleResult where
  risk : ℚ
  score : ℚ
deriving DecidableEq

/-- The `module_results` dict keyed by `image` / `fake_news` /
`sensitive`; a key is present exactly when the channel was processed. -/
structure ModuleResults where
  image : Option ImageModuleResult
  fake_news : Option FakeNewsModuleResult
  sensitive : Option SensitiveModuleResult
deriving DecidableEq

/-- The dict returned by `TrustAggregator.aggregate` (lines 157-164).
`overall_trust_risk` and `confidence` keep the exact rational values
(the source applies a display-only `round(·, 1)`). -/
structure TrustVerdict where
  overall_trust_risk : ℚ
  threat_category : String
  confidence : ℚ
  module_results : ModuleResults
  explanation : String
  recommendations : List String
deriving DecidableEq

/-- One element of the `risk_scores` list: `(name, risk, weight)`. -/
def RiskScore := String × ℚ × ℚ

/-- The image block of `aggregate` (lines 58-82): returns the
`module_results['image']` entry, the `risk_scores` contribution and the
`explanations` contribution.  The `"%.1f"` formatting of the confidence
raises on a non-numeric value (hence `asNum`), except in the
`inconclusive` branch which formats nothing. -/
def process_image (image_analysis : Option PyDict) :
    Option (Option ImageModuleResult × List RiskScore × List String) :=
  if truthy image_analysis then do
    let d := image_analysis.getD []
    let classification := pyGetD d "classification" (.str "unknown")
    let confidence := pyGetD d "confidence" (.num 0)
    let re ←
      if pyValEqStr classification "deepfake" then do
        let c ← asNum confidence
        some ((80 : ℚ), "Image manipulation detected (" ++ fmt1 c ++ "% confidence)")
      else if pyValEqStr classification "sensitive" then do
        let c ← asNum confidence
        some ((40 : ℚ), "Sensitive content detected (" ++ fmt1 c ++ "% confidence)")
      else if pyValEqStr classification "real_safe" then do
        let c ← asNum confidence
        some ((20 : ℚ), "Image appears authentic (" ++ fmt1 c ++ "% confidence)")
      else
        some ((50 : ℚ), "Image analysis inconclusive")
    some (some ⟨re.1, classification, confidence⟩,
          [("image", re.1, weight_image_analysis)], [re.2])
  else
    some (none, [], [])

/-- The fake-news block of `aggregate` (lines 84-106).  The comparison
`fake_news_likelihood > 50` (line 93) raises on a non-numeric likelihood;
`credibility_score > 60` (line 96) is only evaluated when the first test
is false. -/
def process_fake_news (fake_news_analysis : Option PyDict) :
    Option (Option FakeNewsModuleResult × List RiskScore × List String) :=
  if truthy fake_news_analysis then do
    let d := fake_news_analysis.getD []
    let likelihoodVal := pyGetD d "fake_news_likelihood" (.num 0)
    let credibilityVal := pyGetD d "credibility_score" (.num 50)
    let fl ← asNum likelihoodVal
    let ex ←
      if fl > 50 then
        let p := if fl > 75 then "High" else "Moderate"
        some (p ++ " fake news likelihood (" ++ fmt1 fl ++ "%)")
      else do
        let cs ← asNum credibilityVal
        if cs > 60 then
          some ("Content appears credible (" ++ fmt1 cs ++ "%)")
        else
          some "Text analysis results are uncertain"
    some (some ⟨fl, fl, credibilityVal⟩,
          [("fake_news", fl, weight_fake_news)], [ex])
  else
    some (none, [], [])

/-- The sensitive-content block of `aggregate` (lines 108-121).  The
comparison `sensitive_score > 50` (line 114) raises on a non-numeric
score. -/
def process_sensitive (sensitive_content : Option PyDict) :
    Option (Option SensitiveModuleResult × List RiskScore × List String) :=
  if truthy sensitive_content then do
    let d := sensitive_content.getD []
    let s ← asNum (pyGetD d "sensitive_score" (.num 0))
    let ex := if s > 50 then ["Sensitive content detected (" ++ fmt1 s ++ "%)"] else []
    some (some ⟨s, s⟩, [("sensitive", s, weight_sensitive_content)], ex)
  else
    some (none, [], [])

/-- `image_analysis and image_analysis.get('classification') == 'deepfake'`
(lines 174, 186, 218): truthiness of the dict, then comparison of the
un-defaulted lookup with the string. -/
def image_is_deepfake (image_analysis : Option PyDict) : Bool :=
  truthy image_analysis &&
    (match pyGet (image_analysis.getD []) "classification" with
     | some v => pyValEqStr v "deepfake"
     | none => false)

/-- `fake_news_analysis and fake_news_analysis.get('fake_news_likelihood', 0) > t`
(lines 175, 179, 188, 221): the comparison raises on a non-numeric
likelihood, but only when the dict is truthy (`and` short-circuits). -/
def likelihood_gt (fake_news_analysis : Option PyDict) (t : ℚ) : Option Bool :=
  if truthy fake_news_analysis then do
    let q ← asNum (pyGetD (fake_news_analysis.getD []) "fake_news_likelihood" (.num 0))
    some (q > t)
  else
    some false

/-- `TrustAggregator._determine_threat_category` (lines 166-199). -/
def determine_threat_category (overall_risk : ℚ)
    (image_analysis fake_news_analysis : Option PyDict) : Option String :=
  if overall_risk ≥ 65 then
    if image_is_deepfake image_analysis then do
      let b ← likelihood_gt fake_news_analysis 50
      some (if b then "Severe: Manipulated Media + Misinformation"
            else "High: Manipulated Media")
    else do
      let b ← likelihood_gt fake_news_analysis 50
      some (if b then "High: Misinformation" else "High: Multiple Risk Factors")
  else if overall_risk ≥ 40 then
    if image_is_deepfake image_analysis then
      some "Medium: Potential Media Manipulation"
    else do
      let b ← likelihood_gt fake_news_analysis 40
      some (if b then "Medium: Potential Misinformation" else "Medium: Moderate Risk")
  else if overall_risk ≥ 30 then
    some "Low-Medium: Some Concerns"
  else
    some "Low: Generally Trustworthy"

/-- The confidence computation of `aggregate` (lines 138-147): the image
channel contributes its raw confidence, the text channel contributes
`100 - uncertain`; `sum(confidences)` raises on a non-numeric element. -/
def compute_confidences (image_analysis fake_news_analysis : Option PyDict) :
    Option (List ℚ) := do
  let l1 ←
    if truthy image_analysis then do
      let c ← asNum (pyGetD (image_analysis.getD []) "confidence" (.num 0))
      some [c]
    else
      some ([] : List ℚ)
  let l2 ←
    if truthy fake_news_analysis then do
      let u ← asNum (pyGetD (fake_news_analysis.getD []) "uncertain" (.num 50))
      some [100 - u]
    else
      some ([] : List ℚ)
  some (l1 ++ l2)

/-- `TrustAggregator._generate_recommendations` (lines 201-232).  The
`threat_category` parameter is accepted but, as in the source, unused. -/
def generate_recommendations (overall_risk : ℚ) (threat_category : String)
    (image_analysis fake_news_analysis : Option PyDict) : Option (List String) := do
  let r1 :=
    if overall_risk ≥ 70 then
      ["⚠️ **High Risk**: Exercise extreme caution with this content",
       "🔍 Verify information through multiple independent sources",
       "🚫 Do not share without verification"]
    else if overall_risk ≥ 50 then
      ["⚠️ **Moderate Risk**: Verify before sharing",
       "📚 Check fact-checking websites"]
    else []
  let r2 := r1 ++
    (if image_is_deepfake image_analysis then
      ["🖼️ Image shows signs of manipulation - verify source"]
     else [])
  let b ← likelihood_gt fake_news_analysis 60
  let r3 := r2 ++
    (if b then
      ["📰 Text contains indicators of misinformation",
       "✅ Cross-reference with credible news sources"]
     else [])
  let r4 := r3 ++
    (if overall_risk < 30 then
      ["✅ Content appears generally trustworthy",
       "📝 Still recommended to verify critical claims"]
     else [])
  some (if r4.isEmpty then ["ℹ️ Review analysis results for specific concerns"] else r4)

/-- `TrustAggregator.aggregate` (lines 28-164). -/
def aggregate (image_analysis fake_news_analysis sensitive_content : Option PyDict) :
    Option TrustVerdict := do
  let pi ← process_image image_analysis
  let pf ← process_fake_news fake_news_analysis
  let ps ← process_sensitive sensitive_content
  let risk_scores : List RiskScore := pi.2.1 ++ pf.2.1 ++ ps.2.1
  let explanations : List String := pi.2.2 ++ pf.2.2 ++ ps.2.2
  let overall_trust_risk : ℚ :=
    if risk_scores.isEmpty then 50
    else
      let weighted_sum := (risk_scores.map (fun x => x.2.1 * x.2.2)).sum
      let total_weight := (risk_scores.map (fun x => x.2.2)).sum
      if 0 < total_weight then weighted_sum / total_weight else 50
  let threat_category ← determine_threat_category overall_trust_risk
      image_analysis fake_news_analysis
  let confidences ← compute_confidences image_analysis fake_news_analysis
  let overall_confidence : ℚ :=
    if confidences.isEmpty then 50 else confidences.sum / (confidences.length : ℚ)
  let recommendations ← generate_recommendations overall_trust_risk threat_category
      image_analysis fake_news_analysis
  some
    { overall_trust_risk := overall_trust_risk
      threat_category := threat_category
      confidence := overall_confidence
      module_results := ⟨pi.1, pf.1, ps.1⟩
      explanation :=
        if explanations.isEmpty then "No analysis data available"
        else String.intercalate " | " explanations
      recommendations := recommendations }

end TrustAggregator

/-- Well-typedness of a dict at one key: the key, if present, holds a
number (a string there would make the Python code raise `TypeError`
at the first numeric use). -/
def num_or_absent (d : PyDict) (k : String) : Bool :=
  match pyGet d k with
  | some (.str _) => false
  | _ => true

/-- The numeric value stored at a key, with a default for a missing (or
non-numeric) binding.  Coincides with `d.get(k, v)` whenever
`num_or_absent d k` holds. -/
def numAtD (d : PyDict) (k : String) (v : ℚ) : ℚ :=
  match pyGet d k with
  | some (.num q) => q
  | _ => v

/-- The value at a key, if numeric, lies in [0, 100] (a missing key is
fine: every default the aggregator uses is in range). -/
def in_range_num (d : PyDict) (k : String) : Bool :=
  match pyGet d k with
  | some (.num q) => decide (0 ≤ q ∧ q ≤ 100)
  | _ => true

namespace TrustAggregator

/-- Image input well-typed: a present `confidence` is numeric. -/
def wt_image (image_analysis : Option PyDict) : Bool :=
  match image_analysis with
  | none => true
  | some d => num_or_absent d "confidence"

/-- Text input well-typed: present `fake_news_likelihood`,
`credibility_score` and `uncertain` values are numeric. -/
def wt_fake_news (fake_news_analysis : Option PyDict) : Bool :=
  match fake_news_analysis with
  | none => true
  | some d =>
    num_or_absent d "fake_news_likelihood" && num_or_absent d "credibility_score" &&
      num_or_absent d "uncertain"

/-- Safety input well-typed: a present `sensitive_score` is numeric. -/
def wt_sensitive (sensitive_content : Option PyDict) : Bool :=
  match sensitive_content with
  | none => true
  | some d => num_or_absent d "sensitive_score"

/-- The image channel's mapped risk, as the spec words it:
`deepfake` → 80, `sensitive` → 40, `real_safe` → 20, anything else → 50. -/
def spec_image_risk (image_analysis : Option PyDict) : ℚ :=
  let c := pyGetD (image_analysis.getD []) "classification" (.str "unknown")
  if pyValEqStr c "deepfake" then 80
  else if pyValEqStr c "sensitive" then 40
  else if pyValEqStr c "real_safe" then 20
  else 50

/-- The text channel's risk: the supplied `fake_news_likelihood` (0 when
the channel is absent or the key missing). -/
def spec_likelihood (fake_news_analysis : Option PyDict) : ℚ :=
  if truthy fake_news_analysis then
    numAtD (fake_news_analysis.getD []) "fake_news_likelihood" 0
  else 0

/-- The safety channel's risk: the supplied `sensitive_score`. -/
def spec_sensitive_risk (sensitive_content : Option PyDict) : ℚ :=
  numAtD (sensitive_content.getD []) "sensitive_score" 0

/-- The raw likelihood the text channel supplies (0 if the key is
missing). -/
def fl_of (fake_news_analysis : Option PyDict) : ℚ :=
  numAtD (fake_news_analysis.getD []) "fake_news_likelihood" 0

/-- The `risk_scores` contribution of the image channel. -/
def rs_image (image_analysis : Option PyDict) : List RiskScore :=
  if truthy image_analysis then
    [("image", spec_image_risk image_analysis, weight_image_analysis)]
  else []

/-- The `module_results['image']` entry `aggregate` builds. -/
def mr_image (image_analysis : Option PyDict) : Option ImageModuleResult :=
  if truthy image_analysis then
    some ⟨spec_image_risk image_analysis,
          pyGetD (image_analysis.getD []) "classification" (.str "unknown"),
          pyGetD (image_analysis.getD []) "confidence" (.num 0)⟩
  else none

/-- The explanation clauses the image channel contributes. -/
def expl_image (image_analysis : Option PyDict) : List String :=
  if truthy image_analysis then
    let c := pyGetD (image_analysis.getD []) "classification" (.str "unknown")
    let conf := numAtD (image_analysis.getD []) "confidence" 0
    if pyValEqStr c "deepfake" then
      ["Image manipulation detected (" ++ fmt1 conf ++ "% confidence)"]
    else if pyValEqStr c "sensitive" then
      ["Sensitive content detected (" ++ fmt1 conf ++ "% confidence)"]
    else if pyValEqStr c "real_safe" then
      ["Image appears authentic (" ++ fmt1 conf ++ "% confidence)"]
    else ["Image analysis inconclusive"]
  else []

/-- The `risk_scores` contribution of the text channel. -/
def rs_fake_news (fake_news_analysis : Option PyDict) : List RiskScore :=
  if truthy fake_news_analysis then
    [("fake_news", fl_of fake_news_analysis, weight_fake_news)]
  else []

/-- The `module_results['fake_news']` entry `aggregate` builds. -/
def mr_fake_news (fake_news_analysis : Option PyDict) : Option FakeNewsModuleResult :=
  if truthy fake_news_analysis then
    some ⟨fl_of fake_news_analysis, fl_of fake_news_analysis,
          pyGetD (fake_news_analysis.getD []) "credibility_score" (.num 50)⟩
  else none

/-- The explanation clauses the text channel contributes. -/
def expl_fake_news (fake_news_analysis : Option PyDict) : List String :=
  if truthy fake_news_analysis then
    let fl := fl_of fake_news_analysis
    let cs := numAtD (fake_news_analysis.getD []) "credibility_score" 50
    if fl > 50 then
      [(if fl > 75 then "High" else "Moderate") ++ " fake news likelihood (" ++ fmt1 fl ++ "%)"]
    else if cs > 60 then ["Content appears credible (" ++ fmt1 cs ++ "%)"]
    else ["Text analysis results are uncertain"]
  else []

/-- The `risk_scores` contribution of the safety channel. -/
def rs_sensitive (sensitive_content : Option PyDict) : List RiskScore :=
  if truthy sensitive_content then
    [("sensitive", spec_sensitive_risk sensitive_content, weight_sensitive_content)]
  else []

/-- The `module_results['sensitive']` entry `aggregate` builds. -/
def mr_sensitive (sensitive_content : Option PyDict) : Option SensitiveModuleResult :=
  if truthy sensitive_content then
    some ⟨spec_sensitive_risk sensitive_content, spec_sensitive_risk sensitive_content⟩
  else none

/-- The explanation clauses the safety channel contributes. -/
def expl_sensitive (sensitive_content : Option PyDict) : List String :=
  if truthy sensitive_content then
    if spec_sensitive_risk sensitive_content > 50 then
      ["Sensitive content detected (" ++ fmt1 (spec_sensitive_risk sensitive_content) ++ "%)"]
    else []
  else []

/-- The `risk_scores` list `aggregate` builds, as a function of the three
inputs (one `(name, risk, weight)` triple per truthy channel). -/
def agg_risk_scores (image_analysis fake_news_analysis sensitive_content : Option PyDict) :
    List RiskScore :=
  rs_image image_analysis ++ rs_fake_news fake_news_analysis ++
    rs_sensitive sensitive_content

/-- The overall risk `aggregate` computes (trust_aggregator.py lines
124-129), as a function of the three inputs. -/
def agg_overall (image_analysis fake_news_analysis sensitive_content : Option PyDict) : ℚ :=
  let rs := agg_risk_scores image_analysis fake_news_analysis sensitive_content
  if rs.isEmpty then 50
  else
    let weighted_sum := (rs.map (fun x => x.2.1 * x.2.2)).sum
    let total_weight := (rs.map (fun x => x.2.2)).sum
    if 0 < total_weight then weighted_sum / total_weight else 50

/-- The weighted average exactly as the spec states it:
`Σ(risk_i * weight_i) / Σ(weight_i)` over the present channels only. -/
def spec_overall_risk (image_analysis fake_news_analysis sensitive_content : Option PyDict) : ℚ :=
  ((if truthy image_analysis then
      spec_image_risk image_analysis * weight_image_analysis else 0) +
   (if truthy fake_news_analysis then
      numAtD (fake_news_analysis.getD []) "fake_news_likelihood" 0 * weight_fake_news else 0) +
   (if truthy sensitive_content then
      spec_sensitive_risk sensitive_content * weight_sensitive_content else 0)) /
  ((if truthy image_analysis then weight_image_analysis else 0) +
   (if truthy fake_news_analysis then weight_fake_news else 0) +
   (if truthy sensitive_content then weight_sensitive_content else 0))

/-- The threat-category decision table exactly as the spec words it,
over the overall risk, whether the image channel classified the content
as a deepfake, and the text channel's fake-news likelihood. -/
def spec_threat_category (overall_risk : ℚ) (deepfake : Bool) (likelihood : ℚ) : String :=
  if overall_risk ≥ 65 then
    if deepfake && decide (likelihood > 50) then "Severe: Manipulated Media + Misinformation"
    else if deepfake then "High: Manipulated Media"
    else if likelihood > 50 then "High: Misinformation"
    else "High: Multiple Risk Factors"
  else if overall_risk ≥ 40 then
    if deepfake then "Medium: Potential Media Manipulation"
    else if likelihood > 40 then "Medium: Potential Misinformation"
    else "Medium: Moderate Risk"
  else if overall_risk ≥ 30 then "Low-Medium: Some Concerns"
  else "Low: Generally Trustworthy"

/-- The per-channel confidence contributions: the image channel's raw
confidence and `100 - uncertainty` for the text channel. -/
def spec_conf_list (image_analysis fake_news_analysis : Option PyDict) : List ℚ :=
  (if truthy image_analysis then
    [numAtD (image_analysis.getD []) "confidence" 0] else []) ++
  (if truthy fake_news_analysis then
    [100 - numAtD (fake_news_analysis.getD []) "uncertain" 50] else [])

/-- The returned confidence: the average of the available contributions,
50 when there are none. -/
def spec_confidence (image_analysis fake_news_analysis : Option PyDict) : ℚ :=
  let l := spec_conf_list image_analysis fake_news_analysis
  if l.isEmpty then 50 else l.sum / (l.length : ℚ)

/-- The recommendation list (trust_aggregator.py lines 201-232) as a
function of the overall risk and the two raw inputs. -/
def spec_recommendations (overall_risk : ℚ)
    (image_analysis fake_news_analysis : Option PyDict) : List String :=
  let r1 :=
    if overall_risk ≥ 70 then
      ["⚠️ **High Risk**: Exercise extreme caution with this content",
       "🔍 Verify information through multiple independent sources",
       "🚫 Do not share without verification"]
    else if overall_risk ≥ 50 then
      ["⚠️ **Moderate Risk**: Verify before sharing",
       "📚 Check fact-checking websites"]
    else []
  let r2 := r1 ++
    (if image_is_deepfake image_analysis then
      ["🖼️ Image shows signs of manipulation - verify source"]
     else [])
  let r3 := r2 ++
    (if spec_likelihood fake_news_analysis > 60 then
      ["📰 Text contains indicators of misinformation",
       "✅ Cross-reference with credible news sources"]
     else [])
  let r4 := r3 ++
    (if overall_risk < 30 then
      ["✅ Content appears generally trustworthy",
       "📝 Still recommended to verify critical claims"]
     else [])
  if r4.isEmpty then ["ℹ️ Review analysis results for specific concerns"] else r4

/-- The whole verdict `aggregate` produces on well-typed inputs, as one
total function (proved equal to the embedding in `aggregate_eq`). -/
def aggregateT (image_analysis fake_news_analysis sensitive_content : Option PyDict) :
    TrustVerdict :=
  let r := agg_overall image_analysis fake_news_analysis sensitive_content
  let ex := expl_image image_analysis ++ expl_fake_news fake_news_analysis ++
    expl_sensitive sensitive_content
  { overall_trust_risk := r
    threat_category :=
      spec_threat_category r (image_is_deepfake image_analysis)
        (spec_likelihood fake_news_analysis)
    confidence := spec_confidence image_analysis fake_news_analysis
    module_results :=
      ⟨mr_image image_analysis, mr_fake_news fake_news_analysis,
       mr_sensitive sensitive_content⟩
    explanation :=
      if ex.isEmpty then "No analysis data available"
      else String.intercalate " | " ex
    recommendations := spec_recommendations r image_analysis fake_news_analysis }

end TrustAggregator

namespace VerificationEngine

/-! ## Verification & Re-Upload Check (src/modules/verification.py) -/

/-- `self.exact_match_threshold` (verification.py line 15; unused by the
source's `verify` logic, kept for fidelity). -/
def exact_match_threshold : ℚ := 1.0

/-- `self.perceptual_similarity_threshold` (line 16). -/
def perceptual_similarity_threshold : ℚ := 0.85

/-- `self.face_match_threshold` (line 17; unused by the source's `verify`
logic, kept for fidelity). -/
def face_match_threshold : ℚ := 0.90

/-- The hash fields read from a fingerprint dict; a missing key gives
`none` (Python `dict.get` returning `None`). -/
structure Fingerprint where
  sha256 : Option String
  perceptual_hash : Option String
  face_embedding_hash : Option String
deriving DecidableEq

/-- One registry entry: `protected.get('fingerprint', {})` means an entry
may lack the `fingerprint` key (then every hash reads as `None`); `meta`
stands for the rest of the registered record. -/
structure ProtectedEntry where
  fingerprint : Option Fingerprint
  meta : String
deriving DecidableEq

/-- `protected.get('fingerprint', {})` (line 48). -/
def fp_of (e : ProtectedEntry) : Fingerprint :=
  e.fingerprint.getD ⟨none, none, none⟩

/-- The dict returned by `VerificationEngine.verify`; `details` is the
nested dict as an association list. -/
structure MatchDecision where
  match_found : Bool
  match_type : Option String
  similarity : ℚ
  matched_fingerprint : Option ProtectedEntry
  details : List (String × String)
deriving DecidableEq

/-- Python str() of an optional string (`None` prints as `"None"`),
used by the f-string building the `method` detail. -/
def pyStrOfOpt : Option String → String
  | some s => s
  | none => "None"

/-- Python `str.lower()`, character-wise (the hashes compared are ASCII
hex digests, for which this matches CPython). -/
def pyLower (s : String) : String :=
  ⟨s.data.map Char.toLower⟩

/-- `VerificationEngine._check_exact_match` (lines 115-119). -/
def check_exact_match (hash1 hash2 : Option String) : Bool :=
  if !(strTruthy hash1) || !(strTruthy hash2) then false
  else pyLower (hash1.getD "") == pyLower (hash2.getD "")

/-- `sum(c1 != c2 for c1, c2 in zip(hash1, hash2))` (line 136). -/
def hamming_count (s1 s2 : String) : ℕ :=
  ((s1.data.zip s2.data).filter (fun p => !(p.1 == p.2))).length

/-- `sum(c1 == c2 for c1, c2 in zip(hash1, hash2))` (lines 147, 165). -/
def common_count (s1 s2 : String) : ℕ :=
  ((s1.data.zip s2.data).filter (fun p => p.1 == p.2)).length

/-- `VerificationEngine._check_perceptual_similarity` (lines 121-149);
division is modelled by `pyDiv` so that a (never reachable) zero
denominator would surface as `none`. -/
def check_perceptual_similarity (hash1 hash2 : Option String) : Option ℚ :=
  if !(strTruthy hash1) || !(strTruthy hash2) then some 0
  else
    let s1 := hash1.getD ""
    let s2 := hash2.getD ""
    if s1.length = 16 ∧ s2.length = 16 then do
      let t ← pyDiv (hamming_count s1 s2 : ℚ) (s1.length : ℚ)
      some (max 0 ((1 - t) * 100))
    else if s1 == s2 then some 100
    else do
      let t ← pyDiv (common_count s1 s2 : ℚ) ((max s1.length s2.length : ℕ) : ℚ)
      some (t * 100)

/-- `VerificationEngine._check_face_similarity` (lines 151-167). -/
def check_face_similarity (hash1 hash2 : Option String) : Option ℚ :=
  if !(strTruthy hash1) || !(strTruthy hash2) then some 0
  else
    let s1 := hash1.getD ""
    let s2 := hash2.getD ""
    if s1 == s2 then some 100
    else do
      let t ← pyDiv (common_count s1 s2 : ℚ) ((max s1.length s2.length : ℕ) : ℚ)
      some (t * 100)

/-- The early return on an exact SHA-256 match (lines 56-66). -/
def exact_decision (e : ProtectedEntry) : MatchDecision :=
  { match_found := true
    match_type := some "exact"
    similarity := 100
    matched_fingerprint := some e
    details := [("method", "SHA-256 cryptographic hash match"), ("confidence", "100%")] }

/-- The decision built after the scan (lines 91-113). -/
def final_decision (best_similarity : ℚ) (best_match : Option ProtectedEntry)
    (best_match_type : Option String) : MatchDecision :=
  if perceptual_similarity_threshold * 100 ≤ best_similarity then
    { match_found := true
      match_type := best_match_type
      similarity := best_similarity
      matched_fingerprint := best_match
      details := [("method", pyStrOfOpt best_match_type ++ " similarity match"),
                  ("confidence", fmt1 best_similarity ++ "%")] }
  else
    { match_found := false
      match_type := none
      similarity := best_similarity
      matched_fingerprint := none
      details := [("message", "No significant match found"),
                  ("highest_similarity", fmt1 best_similarity ++ "%")] }

/-- The scan loop of `verify` (lines 47-89) with the running best
`(match, similarity, type)` accumulator. -/
def verify_scan (fd : Fingerprint) :
    List ProtectedEntry → Option ProtectedEntry → ℚ → Option String →
    Option MatchDecision
  | [], best_match, best_similarity, best_match_type =>
    some (final_decision best_similarity best_match best_match_type)
  | e :: rest, best_match, best_similarity, best_match_type =>
    let pfp := fp_of e
    if check_exact_match fd.sha256 pfp.sha256 then
      some (exact_decision e)
    else do
      let psim ← check_perceptual_similarity fd.perceptual_hash pfp.perceptual_hash
      let b1 :=
        if best_similarity < psim then (some e, psim, some ("perceptual" : String))
        else (best_match, best_similarity, best_match_type)
      if strTruthy fd.face_embedding_hash && strTruthy pfp.face_embedding_hash then do
        let fsim ← check_face_similarity fd.face_embedding_hash pfp.face_embedding_hash
        let b2 :=
          if b1.2.1 < fsim then (some e, fsim, some ("face" : String))
          else b1
        verify_scan fd rest b2.1 b2.2.1 b2.2.2
      else
        verify_scan fd rest b1.1 b1.2.1 b1.2.2

/-- `VerificationEngine.verify` (lines 19-113). -/
def verify (fd : Fingerprint) (protected_fingerprints : List ProtectedEntry) :
    Option MatchDecision :=
  if protected_fingerprints.isEmpty then
    some
      { match_found := false
        match_type := none
        similarity := 0
        matched_fingerprint := none
        details := [("message", "No protected fingerprints in database")] }
  else
    verify_scan fd protected_fingerprints none 0 none

/-- The perceptual similarity a scan step sees (the check always
succeeds; `getD 0` only discharges the `Option`). -/
def psim_val (fd : Fingerprint) (e : ProtectedEntry) : ℚ :=
  (check_perceptual_similarity fd.perceptual_hash (fp_of e).perceptual_hash).getD 0

/-- The face similarity a scan step sees when the gate is open. -/
def fsim_val (fd : Fingerprint) (e : ProtectedEntry) : ℚ :=
  (check_face_similarity fd.face_embedding_hash (fp_of e).face_embedding_hash).getD 0

/-- The gate of the face comparison (line 80): both sides carry a truthy
face-embedding hash. -/
def face_gate (fd : Fingerprint) (e : ProtectedEntry) : Bool :=
  strTruthy fd.face_embedding_hash && strTruthy (fp_of e).face_embedding_hash

/-- How one scanned entry updates the running best similarity. -/
def best_step (fd : Fingerprint) (b : ℚ) (e : ProtectedEntry) : ℚ :=
  let b1 := max b (psim_val fd e)
  if face_gate fd e then max b1 (fsim_val fd e) else b1

/-- The best similarity found across both metrics over the whole scan. -/
def best_sim (fd : Fingerprint) (reg : List ProtectedEntry) : ℚ :=
  reg.foldl (best_step fd) 0

/-- The spec's notion of an exact match between the candidate and one
registry entry: both exact hashes present (non-empty) and equal
case-insensitively. -/
def exact_eq_spec (fd : Fingerprint) (e : ProtectedEntry) : Prop :=
  ∃ s t, fd.sha256 = some s ∧ (fp_of e).sha256 = some t ∧
    s ≠ "" ∧ t ≠ "" ∧ pyLower s = pyLower t

end VerificationEngine

/-!
## Theorems

Helper lemmas first, then one theorem per spec claim (with its witness or
counterexample where required).
-/

theorem pyGetD_eq_num (d : PyDict) (k : String) (v : ℚ)
    (h : num_or_absent d k = true) :
    pyGetD d k (.num v) = .num (numAtD d k v) := by
  unfold pyGetD numAtD
  unfold num_or_absent at h
  rcases hv : pyGet d k with _ | val
  · simp [hv, Option.getD]
  · rcases val with s | q
    · rw [hv] at h; simp at h
    · simp [hv, Option.getD]

theorem numAtD_in_range (d : PyDict) (k : String)
    (h : in_range_num d k = true) :
    0 ≤ numAtD d k 0 ∧ numAtD d k 0 ≤ 100 := by
  unfold numAtD
  unfold in_range_num at h
  rcases hv : pyGet d k with _ | val
  · norm_num
  · rcases val with s | q
    · norm_num
    · rw [hv] at h; simpa using of_decide_eq_true h

namespace TrustAggregator

theorem process_image_eq (img : Option PyDict) (hwt : wt_image img = true) :
    process_image img = some (mr_image img, rs_image img, expl_image img) := by
  cases htr : truthy img
  · simp [process_image, mr_image, rs_image, expl_image, htr]
  · rcases img with _ | d
    · simp [truthy] at htr
    · have hnum : num_or_absent d "confidence" = true := hwt
      have hconf := pyGetD_eq_num d "confidence" 0 hnum
      cases hb1 : pyValEqStr (pyGetD d "classification" (.str "unknown")) "deepfake"
      case true =>
        simp [process_image, mr_image, rs_image, expl_image, spec_image_risk,
          htr, hconf, asNum, hb1]
      case false =>
        cases hb2 : pyValEqStr (pyGetD d "classification" (.str "unknown")) "sensitive"
        case true =>
          simp [process_image, mr_image, rs_image, expl_image, spec_image_risk,
            htr, hconf, asNum, hb1, hb2]
        case false =>
          cases hb3 : pyValEqStr (pyGetD d "classification" (.str "unknown")) "real_safe"
          all_goals
            simp [process_image, mr_image, rs_image, expl_image, spec_image_risk,
              htr, hconf, asNum, hb1, hb2, hb3]

theorem process_fake_news_eq (fn : Option PyDict) (hwt : wt_fake_news fn = true) :
    process_fake_news fn = some (mr_fake_news fn, rs_fake_news fn, expl_fake_news fn) := by
  cases htr : truthy fn
  · simp [process_fake_news, mr_fake_news, rs_fake_news, expl_fake_news, htr]
  · rcases fn with _ | d
    · simp [truthy] at htr
    · have hwt' : (num_or_absent d "fake_news_likelihood" &&
        num_or_absent d "credibility_score" && num_or_absent d "uncertain") = true := hwt
      simp only [Bool.and_eq_true] at hwt'
      have hlik := pyGetD_eq_num d "fake_news_likelihood" 0 hwt'.1.1
      have hcred := pyGetD_eq_num d "credibility_score" 50 hwt'.1.2
      by_cases h5 : numAtD d "fake_news_likelihood" 0 > 50
      · simp [process_fake_news, mr_fake_news, rs_fake_news, expl_fake_news, fl_of,
          htr, hlik, asNum, h5]
      · by_cases h6 : numAtD d "credibility_score" 50 > 60
        all_goals
          simp [process_fake_news, mr_fake_news, rs_fake_news, expl_fake_news, fl_of,
            htr, hlik, hcred, asNum, h5, h6]

theorem process_sensitive_eq (sc : Option PyDict) (hwt : wt_sensitive sc = true) :
    process_sensitive sc = some (mr_sensitive sc, rs_sensitive sc, expl_sensitive sc) := by
  cases htr : truthy sc
  · simp [process_sensitive, mr_sensitive, rs_sensitive, expl_sensitive, htr]
  · rcases sc with _ | d
    · simp [truthy] at htr
    · have hnum : num_or_absent d "sensitive_score" = true := hwt
      have hsc := pyGetD_eq_num d "sensitive_score" 0 hnum
      simp [process_sensitive, mr_sensitive, rs_sensitive, expl_sensitive,
        spec_sensitive_risk, htr, hsc, asNum]

theorem likelihood_gt_eq (t : ℚ) (fn : Option PyDict)
    (hwt : wt_fake_news fn = true) (ht : 0 ≤ t) :
    likelihood_gt fn t = some (decide (spec_likelihood fn > t)) := by
  cases htr : truthy fn
  · have : ¬ ((0 : ℚ) > t) := not_lt.mpr ht
    simp [likelihood_gt, htr, spec_likelihood, this]
  · rcases fn with _ | d
    · simp [truthy] at htr
    · have hwt' : (num_or_absent d "fake_news_likelihood" &&
        num_or_absent d "credibility_score" && num_or_absent d "uncertain") = true := hwt
      simp only [Bool.and_eq_true] at hwt'
      have hlik := pyGetD_eq_num d "fake_news_likelihood" 0 hwt'.1.1
      simp [likelihood_gt, htr, hlik, asNum, spec_likelihood]

theorem determine_threat_category_eq (r : ℚ) (img fn : Option PyDict)
    (hwt : wt_fake_news fn = true) :
    determine_threat_category r img fn =
      some (spec_threat_category r (image_is_deepfake img) (spec_likelihood fn)) := by
  have h50 := likelihood_gt_eq 50 fn hwt (by norm_num)
  have h40 := likelihood_gt_eq 40 fn hwt (by norm_num)
  unfold determine_threat_category spec_threat_category
  cases hd : image_is_deepfake img <;>
    by_cases h65 : r ≥ 65 <;>
      by_cases hr40 : r ≥ 40 <;>
        by_cases hr30 : r ≥ 30 <;>
          simp [h65, hr40, hr30, hd, h50, h40]

theorem compute_confidences_eq (img fn : Option PyDict)
    (h1 : wt_image img = true) (h2 : wt_fake_news fn = true) :
    compute_confidences img fn = some (spec_conf_list img fn) := by
  have himg : ∀ h : truthy img = true,
      asNum (pyGetD (img.getD []) "confidence" (.num 0)) =
        some (numAtD (img.getD []) "confidence" 0) := by
    intro h
    rcases img with _ | d
    · simp [truthy] at h
    · have hnum : num_or_absent d "confidence" = true := h1
      simp [pyGetD_eq_num d "confidence" 0 hnum, asNum]
  have hfn : ∀ h : truthy fn = true,
      asNum (pyGetD (fn.getD []) "uncertain" (.num 50)) =
        some (numAtD (fn.getD []) "uncertain" 50) := by
    intro h
    rcases fn with _ | d
    · simp [truthy] at h
    · have hwt' : (num_or_absent d "fake_news_likelihood" &&
        num_or_absent d "credibility_score" && num_or_absent d "uncertain") = true := h2
      simp only [Bool.and_eq_true] at hwt'
      simp [pyGetD_eq_num d "uncertain" 50 hwt'.2, asNum]
  cases htr1 : truthy img <;> cases htr2 : truthy fn <;>
    simp [compute_confidences, spec_conf_list, htr1, htr2, himg, hfn]

theorem generate_recommendations_eq (r : ℚ) (tc : String) (img fn : Option PyDict)
    (hwt : wt_fake_news fn = true) :
    generate_recommendations r tc img fn = some (spec_recommendations r img fn) := by
  have h60 := likelihood_gt_eq 60 fn hwt (by norm_num)
  by_cases hgt : spec_likelihood fn > 60 <;>
    simp [generate_recommendations, spec_recommendations, h60, hgt]

theorem aggregate_eq (img fn sc : Option PyDict)
    (h1 : wt_image img = true) (h2 : wt_fake_news fn = true)
    (h3 : wt_sensitive sc = true) :
    aggregate img fn sc = some (aggregateT img fn sc) := by
  have hdet : ∀ r, determine_threat_category r img fn =
      some (spec_threat_category r (image_is_deepfake img) (spec_likelihood fn)) :=
    fun r => determine_threat_category_eq r img fn h2
  have hrec : ∀ r tc, generate_recommendations r tc img fn =
      some (spec_recommendations r img fn) :=
    fun r tc => generate_recommendations_eq r tc img fn h2
  unfold aggregate
  rw [process_image_eq img h1, process_fake_news_eq fn h2, process_sensitive_eq sc h3]
  simp only [Option.bind_eq_bind', Option.some_bind]
  rw [hdet, Option.some_bind, compute_confidences_eq img fn h1 h2, Option.some_bind,
    hrec, Option.some_bind]
  rfl

theorem spec_image_risk_bounds (img : Option PyDict) :
    0 ≤ spec_image_risk img ∧ spec_image_risk img ≤ 100 := by
  dsimp only [spec_image_risk]
  split_ifs <;> norm_num

theorem agg_overall_eq_spec (img fn sc : Option PyDict)
    (hp : truthy img = true ∨ truthy fn = true ∨ truthy sc = true) :
    agg_overall img fn sc = spec_overall_risk img fn sc := by
  unfold agg_overall agg_risk_scores rs_image rs_fake_news rs_sensitive
    spec_overall_risk weight_image_analysis weight_fake_news weight_sensitive_content
  cases h1 : truthy img <;> cases h2 : truthy fn <;> cases h3 : truthy sc <;>
    simp [fl_of] <;> norm_num <;> ring_nf
  · simp [h1, h2, h3] at hp

theorem mem_rs_image (img : Option PyDict) (x : RiskScore) (h : x ∈ rs_image img) :
    x = ("image", spec_image_risk img, weight_image_analysis) := by
  unfold rs_image at h
  split at h
  · simpa using h
  · simp at h

theorem mem_rs_fake_news (fn : Option PyDict) (x : RiskScore) (h : x ∈ rs_fake_news fn) :
    x = ("fake_news", fl_of fn, weight_fake_news) := by
  unfold rs_fake_news at h
  split at h
  · simpa using h
  · simp at h

theorem mem_rs_sensitive (sc : Option PyDict) (x : RiskScore) (h : x ∈ rs_sensitive sc) :
    x = ("sensitive", spec_sensitive_risk sc, weight_sensitive_content) := by
  unfold rs_sensitive at h
  split at h
  · simpa using h
  · simp at h

theorem agg_risk_scores_ok (img fn sc : Option PyDict)
    (hr1 : in_range_num (fn.getD []) "fake_news_likelihood" = true)
    (hr2 : in_range_num (sc.getD []) "sensitive_score" = true) :
    ∀ x ∈ agg_risk_scores img fn sc,
      (0 ≤ x.2.1 ∧ x.2.1 ≤ 100) ∧ 0 < x.2.2 := by
  intro x hx
  unfold agg_risk_scores at hx
  rcases List.mem_append.mp hx with hx' | hx'
  · rcases List.mem_append.mp hx' with hxi | hxf
    · rw [mem_rs_image img x hxi]
      exact ⟨spec_image_risk_bounds img, by norm_num [weight_image_analysis]⟩
    · rw [mem_rs_fake_news fn x hxf]
      exact ⟨numAtD_in_range _ _ hr1, by norm_num [weight_fake_news]⟩
  · rw [mem_rs_sensitive sc x hx']
    exact ⟨numAtD_in_range _ _ hr2, by norm_num [weight_sensitive_content]⟩

theorem weighted_list_bounds (rs : List RiskScore)
    (h : ∀ x ∈ rs, (0 ≤ x.2.1 ∧ x.2.1 ≤ 100) ∧ 0 < x.2.2) :
    0 ≤ (if rs.isEmpty then (50 : ℚ)
      else
        if 0 < (rs.map (fun x => x.2.2)).sum then
          (rs.map (fun x => x.2.1 * x.2.2)).sum / (rs.map (fun x => x.2.2)).sum
        else 50) ∧
    (if rs.isEmpty then (50 : ℚ)
      else
        if 0 < (rs.map (fun x => x.2.2)).sum then
          (rs.map (fun x => x.2.1 * x.2.2)).sum / (rs.map (fun x => x.2.2)).sum
        else 50) ≤ 100 := by
  rcases rs with _ | ⟨a, t⟩
  · norm_num
  · have htw : 0 < ((a :: t).map (fun x => x.2.2)).sum := by
      have h0 : 0 < a.2.2 := (h a (by simp)).2
      have h1 : 0 ≤ (t.map (fun x => x.2.2)).sum :=
        List.sum_nonneg (by
          intro q hq
          rcases List.mem_map.mp hq with ⟨y, hy, rfl⟩
          exact (h y (by simp [hy])).2.le)
      simpa using add_pos_of_pos_of_nonneg h0 h1
    have hws0 : 0 ≤ ((a :: t).map (fun x => x.2.1 * x.2.2)).sum :=
      List.sum_nonneg (by
        intro q hq
        rcases List.mem_map.mp hq with ⟨y, hy, rfl⟩
        exact mul_nonneg (h y hy).1.1 (h y hy).2.le)
    have hws1 : ((a :: t).map (fun x => x.2.1 * x.2.2)).sum ≤
        100 * ((a :: t).map (fun x => x.2.2)).sum := by
      have := List.sum_le_sum (l := a :: t)
        (f := fun x : RiskScore => x.2.1 * x.2.2)
        (g := fun x : RiskScore => 100 * x.2.2)
        (by
          intro y hy
          exact mul_le_mul_of_nonneg_right (h y hy).1.2 (h y hy).2.le)
      calc ((a :: t).map (fun x => x.2.1 * x.2.2)).sum
          ≤ ((a :: t).map (fun x => 100 * x.2.2)).sum := this
        _ = 100 * ((a :: t).map (fun x => x.2.2)).sum := by
            rw [← List.sum_map_mul_left]
    simp only [List.isEmpty_cons, if_neg, Bool.false_eq_true, not_false_iff, htw, if_pos]
    exact ⟨div_nonneg hws0 htw.le, (div_le_iff₀ htw).mpr (by linarith)⟩

theorem agg_overall_bounds (img fn sc : Option PyDict)
    (hr1 : in_range_num (fn.getD []) "fake_news_likelihood" = true)
    (hr2 : in_range_num (sc.getD []) "sensitive_score" = true) :
    0 ≤ agg_overall img fn sc ∧ agg_overall img fn sc ≤ 100 := by
  have := weighted_list_bounds (agg_risk_scores img fn sc)
    (agg_risk_scores_ok img fn sc hr1 hr2)
  simpa [agg_overall] using this

/-- C1: for every combination of present/absent module results whose risk
inputs lie in [0,100], `aggregate`'s overall risk is a value in [0,100] and
(when at least one channel is present) equals the weighted average
`Σ(risk_i · weight_i) / Σ(weight_i)` over only the present channels, with
weights 0.4 (image), 0.4 (text), 0.2 (safety) re-normalized over the
present channels, the image risk being the mapped risk (deepfake → 80,
sensitive → 40, real_safe → 20, other → 50), the text risk the
fake-news likelihood and the safety risk the sensitive score. -/
theorem aggregate_overall_risk_weighted_average
    (img fn sc : Option PyDict)
    (h1 : wt_image img = true) (h2 : wt_fake_news fn = true)
    (h3 : wt_sensitive sc = true)
    (hr1 : in_range_num (fn.getD []) "fake_news_likelihood" = true)
    (hr2 : in_range_num (sc.getD []) "sensitive_score" = true) :
    ∃ v, aggregate img fn sc = some v ∧
      0 ≤ v.overall_trust_risk ∧ v.overall_trust_risk ≤ 100 ∧
      ((truthy img = true ∨ truthy fn = true ∨ truthy sc = true) →
        v.overall_trust_risk = spec_overall_risk img fn sc) := by
  refine ⟨aggregateT img fn sc, aggregate_eq img fn sc h1 h2 h3, ?_, ?_, ?_⟩
  · exact (agg_overall_bounds img fn sc hr1 hr2).1
  · exact (agg_overall_bounds img fn sc hr1 hr2).2
  · exact fun hp => agg_overall_eq_spec img fn sc hp

/-- Witness for C1 at the spec's own scenario (image deepfake with
confidence 90, text likelihood 80, safety absent). -/
theorem aggregate_overall_risk_weighted_average_witness :
    ∃ v, aggregate (some [("classification", PyVal.str "deepfake"), ("confidence", PyVal.num 90)])
        (some [("fake_news_likelihood", PyVal.num 80), ("credibility_score", PyVal.num 20),
          ("uncertain", PyVal.num 10)]) none = some v ∧
      0 ≤ v.overall_trust_risk ∧ v.overall_trust_risk ≤ 100 ∧
      ((truthy (some [("classification", PyVal.str "deepfake"), ("confidence", PyVal.num 90)]) = true ∨
        truthy (some [("fake_news_likelihood", PyVal.num 80), ("credibility_score", PyVal.num 20),
          ("uncertain", PyVal.num 10)]) = true ∨
        truthy (none : Option PyDict) = true) →
        v.overall_trust_risk =
          spec_overall_risk
            (some [("classification", PyVal.str "deepfake"), ("confidence", PyVal.num 90)])
            (some [("fake_news_likelihood", PyVal.num 80), ("credibility_score", PyVal.num 20),
              ("uncertain", PyVal.num 10)]) none) :=
  aggregate_overall_risk_weighted_average _ _ _ (by decide) (by decide) (by decide)
    (by decide) (by decide)

/-- C6: the threat category is derived from the overall risk and the raw
image/text inputs by the fixed-priority decision table `spec_threat_category`
(Severe / High / Medium / Low-Medium / Low, with the deepfake and
likelihood sub-conditions), both at the level of
`_determine_threat_category` and as composed inside `aggregate`. -/
theorem threat_category_decision_table :
    (∀ (r : ℚ) (img fn : Option PyDict), wt_fake_news fn = true →
      determine_threat_category r img fn =
        some (spec_threat_category r (image_is_deepfake img) (spec_likelihood fn))) ∧
    (∀ img fn sc : Option PyDict, wt_image img = true → wt_fake_news fn = true →
      wt_sensitive sc = true →
      ∃ v, aggregate img fn sc = some v ∧
        v.threat_category =
          spec_threat_category v.overall_trust_risk (image_is_deepfake img)
            (spec_likelihood fn)) := by
  constructor
  · exact fun r img fn h => determine_threat_category_eq r img fn h
  · intro img fn sc h1 h2 h3
    exact ⟨aggregateT img fn sc, aggregate_eq img fn sc h1 h2 h3, rfl⟩

/-- Witness for C6: risk 70 with a deepfake image and no text input gives
"High: Manipulated Media". -/
theorem threat_category_decision_table_witness :
    wt_fake_news none = true ∧
    determine_threat_category 70 (some [("classification", PyVal.str "deepfake")]) none =
      some (spec_threat_category 70
        (image_is_deepfake (some [("classification", PyVal.str "deepfake")]))
        (spec_likelihood none)) ∧
    spec_threat_category 70
        (image_is_deepfake (some [("classification", PyVal.str "deepfake")]))
        (spec_likelihood none) = "High: Manipulated Media" :=
  ⟨by decide, threat_category_decision_table.1 70 _ none (by decide), by decide⟩

/-- C7 counterexample: at the all-absent input the explanation the code
returns is the capitalized literal, not the claimed lowercase
"no analysis data available". -/
theorem aggregate_all_absent_explanation_not_lowercase :
    (aggregate none none none).map TrustVerdict.explanation ≠
      some "no analysis data available" := by
  rw [aggregate_eq none none none rfl rfl rfl]
  simp [aggregateT, expl_image, expl_fake_news, expl_sensitive, truthy]

/-- C7 (amended): `aggregate` with all three inputs absent returns overall
risk 50, threat category "Medium: Moderate Risk" (not "Low-Medium: Some
Concerns"), and the explanation literal "No analysis data available". -/
theorem aggregate_all_absent_defaults :
    aggregate none none none = some
      { overall_trust_risk := 50
        threat_category := "Medium: Moderate Risk"
        confidence := 50
        module_results := ⟨none, none, none⟩
        explanation := "No analysis data available"
        recommendations := ["⚠️ **Moderate Risk**: Verify before sharing",
                            "📚 Check fact-checking websites"] } := by
  rw [aggregate_eq none none none rfl rfl rfl]
  norm_num [aggregateT, agg_overall, agg_risk_scores, rs_image, rs_fake_news,
    rs_sensitive, mr_image, mr_fake_news, mr_sensitive, expl_image, expl_fake_news,
    expl_sensitive, spec_confidence, spec_conf_list, spec_threat_category,
    spec_recommendations, spec_likelihood, image_is_deepfake, truthy]

/-- C8: the returned confidence is the average of the available per-channel
confidences — the image channel contributes its reported confidence, the
text channel contributes 100 minus its uncertainty, the safety channel
contributes nothing — defaulting to 50 when no contribution exists; and in
the concrete scenario (image confidence 90, text uncertainty 10) the
confidence is 90. -/
theorem aggregate_confidence_average :
    (∀ img fn sc : Option PyDict, wt_image img = true → wt_fake_news fn = true →
      wt_sensitive sc = true →
      ∃ v, aggregate img fn sc = some v ∧ v.confidence = spec_confidence img fn) ∧
    (aggregate (some [("classification", PyVal.str "deepfake"), ("confidence", PyVal.num 90)])
      (some [("fake_news_likelihood", PyVal.num 80), ("credibility_score", PyVal.num 20),
        ("uncertain", PyVal.num 10)]) none).map TrustVerdict.confidence = some 90 := by
  constructor
  · intro img fn sc h1 h2 h3
    exact ⟨aggregateT img fn sc, aggregate_eq img fn sc h1 h2 h3, rfl⟩
  · rw [aggregate_eq _ _ none (by decide) (by decide) rfl]
    simp [aggregateT, spec_confidence, spec_conf_list, truthy, numAtD, pyGet,
      pyGetD, List.find?, beq_eq_decide]
    norm_num

/-- Witness for C8 at a concrete input (image confidence 90, text
uncertainty 10, safety absent). -/
theorem aggregate_confidence_average_witness :
    wt_image (some [("confidence", PyVal.num 90)]) = true ∧
    (∃ v, aggregate (some [("confidence", PyVal.num 90)])
        (some [("uncertain", PyVal.num 10)]) none = some v ∧
      v.confidence = spec_confidence (some [("confidence", PyVal.num 90)])
        (some [("uncertain", PyVal.num 10)])) :=
  ⟨by decide, aggregate_confidence_average.1 _ _ none (by decide) (by decide) (by decide)⟩

/-- C10: a channel passed as an empty mapping is treated exactly like an
absent channel — `aggregate` returns the identical verdict (hence no risk
score, no weight, no explanation clause and no per-module entry for it);
in particular three empty mappings give the same verdict as three absent
inputs. -/
theorem aggregate_empty_dict_like_absent :
    (∀ fn sc : Option PyDict, aggregate (some []) fn sc = aggregate none fn sc) ∧
    (∀ img sc : Option PyDict, aggregate img (some []) sc = aggregate img none sc) ∧
    (∀ img fn : Option PyDict, aggregate img fn (some []) = aggregate img fn none) ∧
    aggregate (some []) (some []) (some []) = aggregate none none none := by
  exact ⟨fun fn sc => rfl, fun img sc => rfl, fun img fn => rfl, rfl⟩

end TrustAggregator

namespace VerificationEngine

theorem length_pos_of_ne_empty (s : String) (h : s ≠ "") : 0 < s.length := by
  rcases s with ⟨l⟩
  rcases l with _ | ⟨c, t⟩
  · exact absurd rfl h
  · simp [String.length]

theorem getD_truthy (h : Option String) (ht : strTruthy h = true) :
    h = some (h.getD "") ∧ h.getD "" ≠ "" := by
  rcases h with _ | s
  · simp [strTruthy] at ht
  · refine ⟨rfl, ?_⟩
    simp only [strTruthy, Bool.not_eq_true'] at ht
    simpa using ht

theorem common_count_le_max (s1 s2 : String) :
    common_count s1 s2 ≤ max s1.length s2.length := by
  unfold common_count
  calc ((s1.data.zip s2.data).filter (fun p => p.1 == p.2)).length
      ≤ (s1.data.zip s2.data).length := List.length_filter_le _ _
    _ = min s1.data.length s2.data.length := List.length_zip _ _
    _ ≤ max s1.length s2.length := le_trans (min_le_left _ _) (le_max_left _ _)

theorem hamming_count_le_length (s1 s2 : String) :
    hamming_count s1 s2 ≤ s1.length := by
  unfold hamming_count
  calc ((s1.data.zip s2.data).filter (fun p => !(p.1 == p.2))).length
      ≤ (s1.data.zip s2.data).length := List.length_filter_le _ _
    _ = min s1.data.length s2.data.length := List.length_zip _ _
    _ ≤ s1.length := min_le_left _ _

theorem counts_add_eq_length (l : List (Char × Char)) :
    (l.filter (fun p => p.1 == p.2)).length +
      (l.filter (fun p => !(p.1 == p.2))).length = l.length := by
  induction l with
  | nil => rfl
  | cons a t ih =>
    cases hb : (a.1 == a.2) <;> simp [List.filter, hb] <;> omega

theorem hamming_count_self (s : String) : hamming_count s s = 0 := by
  unfold hamming_count
  have : ∀ l : List Char, ((l.zip l).filter (fun p => !(p.1 == p.2))) = [] := by
    intro l
    induction l with
    | nil => rfl
    | cons a t ih => simpa [List.filter] using ih
  simp [this]

theorem check_perceptual_similarity_some (h1 h2 : Option String) :
    ∃ q, check_perceptual_similarity h1 h2 = some q ∧ 0 ≤ q ∧ q ≤ 100 := by
  unfold check_perceptual_similarity
  by_cases hc : (!(strTruthy h1) || !(strTruthy h2)) = true
  · rw [if_pos hc]
    exact ⟨0, rfl, le_refl 0, by norm_num⟩
  · rw [if_neg hc]
    simp only [Bool.or_eq_true, Bool.not_eq_true', not_or, Bool.not_eq_false] at hc
    obtain ⟨he1, hne1⟩ := getD_truthy h1 hc.1
    obtain ⟨he2, hne2⟩ := getD_truthy h2 hc.2
    by_cases h16 : (h1.getD "").length = 16 ∧ (h2.getD "").length = 16
    · rw [if_pos h16]
      have hlen : (((h1.getD "").length : ℚ)) ≠ 0 := by rw [h16.1]; norm_num
      have hham : (hamming_count (h1.getD "") (h2.getD "") : ℚ) ≤ 16 := by
        have := hamming_count_le_length (h1.getD "") (h2.getD "")
        rw [h16.1] at this
        exact_mod_cast this
      simp only [pyDiv, if_neg hlen, Option.bind_eq_bind', Option.some_bind]
      refine ⟨_, rfl, le_max_left _ _, ?_⟩
      have hd : (0 : ℚ) ≤ (hamming_count (h1.getD "") (h2.getD "") : ℚ) /
          ((h1.getD "").length : ℚ) := by positivity
      refine max_le (by norm_num) ?_
      nlinarith
    · rw [if_neg h16]
      by_cases heq : ((h1.getD "") == (h2.getD "")) = true
      · rw [if_pos heq]
        exact ⟨100, rfl, by norm_num, by norm_num⟩
      · rw [if_neg heq]
        have hmax : 0 < max (h1.getD "").length (h2.getD "").length :=
          lt_of_lt_of_le (length_pos_of_ne_empty _ hne1) (le_max_left _ _)
        have hmaxq : ((max (h1.getD "").length (h2.getD "").length : ℕ) : ℚ) ≠ 0 := by
          exact_mod_cast Nat.pos_iff_ne_zero.mp hmax
        have hmaxq' : (0 : ℚ) < ((max (h1.getD "").length (h2.getD "").length : ℕ) : ℚ) := by
          exact_mod_cast hmax
        simp only [pyDiv, if_neg hmaxq, Option.bind_eq_bind', Option.some_bind]
        refine ⟨_, rfl, by positivity, ?_⟩
        have hcm : ((common_count (h1.getD "") (h2.getD "") : ℕ) : ℚ) ≤
            ((max (h1.getD "").length (h2.getD "").length : ℕ) : ℚ) := by
          exact_mod_cast common_count_le_max _ _
        have hdle : (common_count (h1.getD "") (h2.getD "") : ℚ) /
            ((max (h1.getD "").length (h2.getD "").length : ℕ) : ℚ) ≤ 1 :=
          (div_le_one hmaxq').mpr hcm
        nlinarith

theorem check_face_similarity_some (h1 h2 : Option String) :
    ∃ q, check_face_similarity h1 h2 = some q ∧ 0 ≤ q ∧ q ≤ 100 := by
  unfold check_face_similarity
  by_cases hc : (!(strTruthy h1) || !(strTruthy h2)) = true
  · rw [if_pos hc]
    exact ⟨0, rfl, le_refl 0, by norm_num⟩
  · rw [if_neg hc]
    simp only [Bool.or_eq_true, Bool.not_eq_true', not_or, Bool.not_eq_false] at hc
    obtain ⟨he1, hne1⟩ := getD_truthy h1 hc.1
    obtain ⟨he2, hne2⟩ := getD_truthy h2 hc.2
    by_cases heq : ((h1.getD "") == (h2.getD "")) = true
    · rw [if_pos heq]
      exact ⟨100, rfl, by norm_num, by norm_num⟩
    · rw [if_neg heq]
      have hmax : 0 < max (h1.getD "").length (h2.getD "").length :=
        lt_of_lt_of_le (length_pos_of_ne_empty _ hne1) (le_max_left _ _)
      have hmaxq : ((max (h1.getD "").length (h2.getD "").length : ℕ) : ℚ) ≠ 0 := by
        exact_mod_cast Nat.pos_iff_ne_zero.mp hmax
      have hmaxq' : (0 : ℚ) < ((max (h1.getD "").length (h2.getD "").length : ℕ) : ℚ) := by
        exact_mod_cast hmax
      simp only [pyDiv, if_neg hmaxq, Option.bind_eq_bind', Option.some_bind]
      refine ⟨_, rfl, by positivity, ?_⟩
      have hcm : ((common_count (h1.getD "") (h2.getD "") : ℕ) : ℚ) ≤
          ((max (h1.getD "").length (h2.getD "").length : ℕ) : ℚ) := by
        exact_mod_cast common_count_le_max _ _
      have hdle : (common_count (h1.getD "") (h2.getD "") : ℚ) /
          ((max (h1.getD "").length (h2.getD "").length : ℕ) : ℚ) ≤ 1 :=
        (div_le_one hmaxq').mpr hcm
      nlinarith

theorem verify_scan_total (fd : Fingerprint) :
    ∀ (l : List ProtectedEntry) bm bs bt, ∃ r, verify_scan fd l bm bs bt = some r := by
  intro l
  induction l with
  | nil => exact fun bm bs bt => ⟨_, rfl⟩
  | cons e rest ih =>
    intro bm bs bt
    rw [verify_scan]
    by_cases hex : check_exact_match fd.sha256 (fp_of e).sha256 = true
    · rw [if_pos hex]
      exact ⟨_, rfl⟩
    · rw [if_neg hex]
      obtain ⟨q, hq, -, -⟩ :=
        check_perceptual_similarity_some fd.perceptual_hash (fp_of e).perceptual_hash
      rw [hq]
      simp only [Option.bind_eq_bind', Option.some_bind]
      by_cases hfg : (strTruthy fd.face_embedding_hash &&
          strTruthy (fp_of e).face_embedding_hash) = true
      · rw [if_pos hfg]
        obtain ⟨q2, hq2, -, -⟩ :=
          check_face_similarity_some fd.face_embedding_hash (fp_of e).face_embedding_hash
        rw [hq2]
        simp only [Option.bind_eq_bind', Option.some_bind]
        exact ih _ _ _
      · rw [if_neg hfg]
        exact ih _ _ _

end VerificationEngine

namespace VerificationEngine

/-- C9: `verify` never raises — on every candidate and registry (all
malformed/missing hash combinations included) it returns a decision; a
comparison with a missing (or empty) hash on either side contributes
similarity 0; and an empty registry yields match_found = false with
similarity 0.0 and the "no protected fingerprints" detail rather than an
error. -/
theorem verify_never_raises :
    (∀ (fd : Fingerprint) (reg : List ProtectedEntry), ∃ r, verify fd reg = some r) ∧
    (∀ h : Option String,
      check_perceptual_similarity none h = some 0 ∧
      check_perceptual_similarity h none = some 0 ∧
      check_perceptual_similarity (some "") h = some 0 ∧
      check_perceptual_similarity h (some "") = some 0 ∧
      check_face_similarity none h = some 0 ∧
      check_face_similarity h none = some 0) ∧
    (∀ fd : Fingerprint, verify fd [] = some
      { match_found := false
        match_type := none
        similarity := 0
        matched_fingerprint := none
        details := [("message", "No protected fingerprints in database")] }) := by
  refine ⟨?_, ?_, fun fd => rfl⟩
  · intro fd reg
    rcases reg with _ | ⟨e, rest⟩
    · exact ⟨_, rfl⟩
    · rw [verify]
      simp only [List.isEmpty_cons, Bool.false_eq_true, if_false]
      exact verify_scan_total fd (e :: rest) none 0 none
  · intro h
    refine ⟨?_, ?_, ?_, ?_, ?_, ?_⟩ <;>
      simp [check_perceptual_similarity, check_face_similarity, strTruthy]

/-- C5: for present (non-empty) perceptual hashes of equal length the
similarity is `(1 - mismatched/length) * 100`; for unequal lengths it is
`matching_positions / max(length1, length2) * 100`; a missing hash on
either side gives 0; and the result always lies in [0,100]. -/
theorem perceptual_similarity_formula :
    (∀ s1 s2 : String, s1 ≠ "" → s2 ≠ "" → s1.length = s2.length →
      check_perceptual_similarity (some s1) (some s2) =
        some ((1 - (hamming_count s1 s2 : ℚ) / (s1.length : ℚ)) * 100)) ∧
    (∀ s1 s2 : String, s1 ≠ "" → s2 ≠ "" → s1.length ≠ s2.length →
      check_perceptual_similarity (some s1) (some s2) =
        some (((common_count s1 s2 : ℚ) / ((max s1.length s2.length : ℕ) : ℚ)) * 100)) ∧
    (∀ h : Option String,
      check_perceptual_similarity none h = some 0 ∧
      check_perceptual_similarity h none = some 0) ∧
    (∀ h1 h2 : Option String,
      ∃ q, check_perceptual_similarity h1 h2 = some q ∧ 0 ≤ q ∧ q ≤ 100) := by
  refine ⟨?_, ?_, ?_, check_perceptual_similarity_some⟩
  · intro s1 s2 h1 h2 hlen
    have ht1 : strTruthy (some s1) = true := by
      simp [strTruthy]; exact h1
    have ht2 : strTruthy (some s2) = true := by
      simp [strTruthy]; exact h2
    have hpos : 0 < s1.length := length_pos_of_ne_empty s1 h1
    have hlenq : ((s1.length : ℚ)) ≠ 0 := by
      exact_mod_cast Nat.pos_iff_ne_zero.mp hpos
    have hcnt := counts_add_eq_length (s1.data.zip s2.data)
    have hzip : (s1.data.zip s2.data).length = s1.length := by
      rw [List.length_zip]
      simp only [String.length] at hlen ⊢
      omega
    unfold check_perceptual_similarity
    rw [if_neg (by simp [ht1, ht2])]
    simp only [Option.getD_some]
    by_cases h16 : s1.length = 16 ∧ s2.length = 16
    · rw [if_pos h16]
      simp only [pyDiv, if_neg hlenq, Option.bind_eq_bind', Option.some_bind]
      congr 1
      have hh : (hamming_count s1 s2 : ℚ) / (s1.length : ℚ) ≤ 1 := by
        apply (div_le_one (by exact_mod_cast hpos)).mpr
        exact_mod_cast hamming_count_le_length s1 s2
      have : (0 : ℚ) ≤ (1 - (hamming_count s1 s2 : ℚ) / (s1.length : ℚ)) * 100 := by
        nlinarith
      rw [max_eq_right this]
    · rw [if_neg h16]
      by_cases heq : (s1 == s2) = true
      · rw [if_pos heq]
        have hs : s1 = s2 := by simpa using heq
        subst hs
        rw [hamming_count_self]
        norm_num
      · rw [if_neg heq]
        simp only [pyDiv]
        have hmaxq : ((max s1.length s2.length : ℕ) : ℚ) ≠ 0 := by
          have : 0 < max s1.length s2.length := lt_of_lt_of_le hpos (le_max_left _ _)
          exact_mod_cast Nat.pos_iff_ne_zero.mp this
        rw [if_neg hmaxq]
        simp only [Option.bind_eq_bind', Option.some_bind]
        congr 1
        have hmaxeq : max s1.length s2.length = s1.length := by omega
        have hcommon : (common_count s1 s2 : ℚ) =
            (s1.length : ℚ) - (hamming_count s1 s2 : ℚ) := by
          have : common_count s1 s2 + hamming_count s1 s2 = s1.length := by
            unfold common_count hamming_count
            rw [← hzip]
            exact hcnt
          have h' : common_count s1 s2 = s1.length - hamming_count s1 s2 := by omega
          rw [h']
          have hle := hamming_count_le_length s1 s2
          push_cast [Nat.cast_sub hle]
          try ring
        rw [hmaxeq, hcommon]
        field_simp
  · intro s1 s2 h1 h2 hlen
    have ht1 : strTruthy (some s1) = true := by
      simp [strTruthy]; exact h1
    have ht2 : strTruthy (some s2) = true := by
      simp [strTruthy]; exact h2
    unfold check_perceptual_similarity
    rw [if_neg (by simp [ht1, ht2])]
    simp only [Option.getD_some]
    have h16 : ¬ (s1.length = 16 ∧ s2.length = 16) := by
      rintro ⟨a, b⟩; exact hlen (a.trans b.symm)
    rw [if_neg h16]
    have heq : (s1 == s2) = false := by
      apply beq_eq_false_iff_ne.mpr
      intro hs
      exact hlen (by rw [hs])
    rw [if_neg (by simp [heq])]
    have hmaxq : ((max s1.length s2.length : ℕ) : ℚ) ≠ 0 := by
      have : 0 < max s1.length s2.length :=
        lt_of_lt_of_le (length_pos_of_ne_empty s1 h1) (le_max_left _ _)
      exact_mod_cast Nat.pos_iff_ne_zero.mp this
    simp only [pyDiv, if_neg hmaxq, Option.bind_eq_bind', Option.some_bind]
  · intro h
    constructor <;> simp [check_perceptual_similarity, strTruthy]

/-- Witness for C5 at concrete hashes: equal-length ("abcd" vs "abcf",
one mismatch in four) and unequal-length ("abc" vs "abcdef"). -/
theorem perceptual_similarity_formula_witness :
    check_perceptual_similarity (some "abcd") (some "abcf") =
      some ((1 - (hamming_count "abcd" "abcf" : ℚ) / (("abcd" : String).length : ℚ)) * 100) ∧
    check_perceptual_similarity (some "abc") (some "abcdef") =
      some (((common_count "abc" "abcdef" : ℚ) /
        ((max ("abc" : String).length ("abcdef" : String).length : ℕ) : ℚ)) * 100) :=
  ⟨perceptual_similarity_formula.1 "abcd" "abcf" (by decide) (by decide) (by decide),
   perceptual_similarity_formula.2.1 "abc" "abcdef" (by decide) (by decide) (by decide)⟩

end VerificationEngine

namespace VerificationEngine

theorem check_exact_match_true_iff (h1 h2 : Option String) :
    check_exact_match h1 h2 = true ↔
      ∃ s t, h1 = some s ∧ h2 = some t ∧ s ≠ "" ∧ t ≠ "" ∧ pyLower s = pyLower t := by
  unfold check_exact_match
  constructor
  · intro h
    by_cases hc : (!(strTruthy h1) || !(strTruthy h2)) = true
    · rw [if_pos hc] at h
      exact absurd h (by simp)
    · rw [if_neg hc] at h
      simp only [Bool.or_eq_true, Bool.not_eq_true', not_or, Bool.not_eq_false] at hc
      obtain ⟨he1, hne1⟩ := getD_truthy h1 hc.1
      obtain ⟨he2, hne2⟩ := getD_truthy h2 hc.2
      exact ⟨h1.getD "", h2.getD "", he1, he2, hne1, hne2, by simpa using h⟩
  · rintro ⟨s, t, rfl, rfl, hs, ht, hlow⟩
    have ht1 : strTruthy (some s) = true := by simp [strTruthy]; exact hs
    have ht2 : strTruthy (some t) = true := by simp [strTruthy]; exact ht
    rw [if_neg (by simp [ht1, ht2])]
    simpa using hlow

theorem verify_scan_exact (fd : Fingerprint) (e : ProtectedEntry)
    (post : List ProtectedEntry)
    (he : check_exact_match fd.sha256 (fp_of e).sha256 = true) :
    ∀ (pre : List ProtectedEntry),
      (∀ x ∈ pre, check_exact_match fd.sha256 (fp_of x).sha256 = false) →
      ∀ bm bs bt, verify_scan fd (pre ++ e :: post) bm bs bt = some (exact_decision e) := by
  intro pre
  induction pre with
  | nil =>
    intro _ bm bs bt
    rw [List.nil_append, verify_scan, if_pos he]
  | cons a t ih =>
    intro hpre bm bs bt
    have ha : check_exact_match fd.sha256 (fp_of a).sha256 = false :=
      hpre a (List.mem_cons_self a t)
    rw [List.cons_append, verify_scan, if_neg (by simp [ha])]
    obtain ⟨q, hq, -, -⟩ :=
      check_perceptual_similarity_some fd.perceptual_hash (fp_of a).perceptual_hash
    rw [hq]
    simp only [Option.bind_eq_bind', Option.some_bind]
    have ih' := fun bm bs bt =>
      ih (fun x hx => hpre x (List.mem_cons_of_mem a hx)) bm bs bt
    by_cases hfg : (strTruthy fd.face_embedding_hash &&
        strTruthy (fp_of a).face_embedding_hash) = true
    · rw [if_pos hfg]
      obtain ⟨q2, hq2, -, -⟩ :=
        check_face_similarity_some fd.face_embedding_hash (fp_of a).face_embedding_hash
      rw [hq2]
      simp only [Option.bind_eq_bind', Option.some_bind]
      exact ih' _ _ _
    · rw [if_neg hfg]
      exact ih' _ _ _

/-- C2: whenever some registry entry's exact hash equals the candidate's
case-insensitively, `verify` returns match_found = true, match_type =
"exact", similarity = 100 with the first such entry in registry order,
independently of every perceptual/biometric hash (the scan
short-circuits). -/
theorem verify_exact_short_circuit (fd : Fingerprint)
    (pre : List ProtectedEntry) (e : ProtectedEntry) (post : List ProtectedEntry)
    (hpre : ∀ x ∈ pre, ¬ exact_eq_spec fd x)
    (he : exact_eq_spec fd e) :
    verify fd (pre ++ e :: post) = some
      { match_found := true
        match_type := some "exact"
        similarity := 100
        matched_fingerprint := some e
        details := [("method", "SHA-256 cryptographic hash match"),
                    ("confidence", "100%")] } := by
  have he' : check_exact_match fd.sha256 (fp_of e).sha256 = true :=
    (check_exact_match_true_iff _ _).mpr he
  have hpre' : ∀ x ∈ pre, check_exact_match fd.sha256 (fp_of x).sha256 = false := by
    intro x hx
    by_cases h : check_exact_match fd.sha256 (fp_of x).sha256 = true
    · exact absurd ((check_exact_match_true_iff _ _).mp h) (hpre x hx)
    · simpa using h
  have hne : (pre ++ e :: post).isEmpty = false := by
    rcases pre with _ | ⟨a, t⟩ <;> rfl
  rw [verify, hne]
  simp only [Bool.false_eq_true, if_false]
  exact verify_scan_exact fd e post he' pre hpre' none 0 none

/-- Witness for C2: candidate sha256 "ABC" matches the second entry's
"abc" case-insensitively while the first entry does not match. -/
theorem verify_exact_short_circuit_witness :
    verify ⟨some "ABC", some "0123456789abcdef", none⟩
      ([⟨some ⟨some "xyz", some "0123456789abcdeX", none⟩, "e1"⟩] ++
        ⟨some ⟨some "abc", none, none⟩, "e2"⟩ ::
        [⟨some ⟨some "abc", none, none⟩, "e3"⟩]) = some
      { match_found := true
        match_type := some "exact"
        similarity := 100
        matched_fingerprint := some ⟨some ⟨some "abc", none, none⟩, "e2"⟩
        details := [("method", "SHA-256 cryptographic hash match"),
                    ("confidence", "100%")] } := by
  apply verify_exact_short_circuit
  · intro x hx
    simp only [List.mem_singleton] at hx
    subst hx
    intro hspec
    have : check_exact_match (some "ABC") (some "xyz") = true :=
      (check_exact_match_true_iff _ _).mpr hspec
    exact absurd this (by decide)
  · exact ⟨"ABC", "abc", rfl, rfl, by decide, by decide, by decide⟩

end VerificationEngine

namespace VerificationEngine

theorem prod_ite_fst {α β : Type} (c : Prop) [Decidable c] (x y : α × β) :
    (ite c x y).1 = ite c x.1 y.1 :=
  apply_ite Prod.fst c x y

theorem prod_ite_snd {α β : Type} (c : Prop) [Decidable c] (x y : α × β) :
    (ite c x y).2 = ite c x.2 y.2 :=
  apply_ite Prod.snd c x y

theorem ite_lt_max (a b : ℚ) : (if a < b then b else a) = max a b := by
  rcases le_or_lt b a with h | h
  · rw [if_neg (not_lt.mpr h), max_eq_left h]
  · rw [if_pos h, max_eq_right h.le]

theorem verify_scan_best (fd : Fingerprint) :
    ∀ (l : List ProtectedEntry) bm (bs : ℚ) bt,
      (∀ x ∈ l, check_exact_match fd.sha256 (fp_of x).sha256 = false) →
      ∃ bm' bt', verify_scan fd l bm bs bt =
        some (final_decision (l.foldl (best_step fd) bs) bm' bt') := by
  intro l
  induction l with
  | nil =>
    intro bm bs bt _
    exact ⟨bm, bt, rfl⟩
  | cons e rest ih =>
    intro bm bs bt hl
    have he : check_exact_match fd.sha256 (fp_of e).sha256 = false :=
      hl e (List.mem_cons_self e rest)
    have hrest : ∀ x ∈ rest, check_exact_match fd.sha256 (fp_of x).sha256 = false :=
      fun x hx => hl x (List.mem_cons_of_mem e hx)
    rw [verify_scan, if_neg (by simp [he])]
    obtain ⟨q, hq, -, -⟩ :=
      check_perceptual_similarity_some fd.perceptual_hash (fp_of e).perceptual_hash
    rw [hq]
    simp only [Option.bind_eq_bind', Option.some_bind, prod_ite_fst, prod_ite_snd,
      ite_lt_max, List.foldl_cons]
    cases hfg : (strTruthy fd.face_embedding_hash &&
        strTruthy (fp_of e).face_embedding_hash)
    · have hfg' : face_gate fd e = false := hfg
      rw [if_neg (by simp)]
      have hstep : best_step fd bs e = max bs q := by
        simp [best_step, psim_val, hq, hfg']
      rw [hstep]
      exact ih _ _ _ hrest
    · have hfg' : face_gate fd e = true := hfg
      rw [if_pos rfl]
      obtain ⟨q2, hq2, -, -⟩ :=
        check_face_similarity_some fd.face_embedding_hash (fp_of e).face_embedding_hash
      rw [hq2]
      simp only [Option.bind_eq_bind', Option.some_bind, prod_ite_fst, prod_ite_snd,
        ite_lt_max]
      have hstep : best_step fd bs e = max (max bs q) q2 := by
        simp [best_step, psim_val, fsim_val, hq, hq2, hfg']
      rw [hstep]
      exact ih _ _ _ hrest

theorem final_decision_fields (b : ℚ) (bm : Option ProtectedEntry) (bt : Option String) :
    (final_decision b bm bt).match_found = decide (85 ≤ b) ∧
    (final_decision b bm bt).similarity = b := by
  unfold final_decision
  have hth : perceptual_similarity_threshold * 100 = (85 : ℚ) := by
    norm_num [perceptual_similarity_threshold]
  rw [hth]
  by_cases h : (85 : ℚ) ≤ b
  · simp [h]
  · simp [h]

theorem not_exact_of_not_spec (fd : Fingerprint) (x : ProtectedEntry)
    (h : ¬ exact_eq_spec fd x) :
    check_exact_match fd.sha256 (fp_of x).sha256 = false := by
  by_cases hc : check_exact_match fd.sha256 (fp_of x).sha256 = true
  · exact absurd ((check_exact_match_true_iff _ _).mp hc) h
  · simpa using hc

/-- C3: with no exact match anywhere in the registry, `verify` reports as
`similarity` the best similarity found over the whole scan and returns
match_found = true exactly when that best similarity is ≥ 85; in
particular a best similarity of exactly 85 yields true, a best similarity
of exactly 84.9 yields false, and in the false case the best similarity
is still reported. -/
theorem verify_threshold_boundary :
    (∀ (fd : Fingerprint) (reg : List ProtectedEntry),
      (∀ x ∈ reg, ¬ exact_eq_spec fd x) →
      ∃ r, verify fd reg = some r ∧
        r.similarity = best_sim fd reg ∧
        r.match_found = decide (85 ≤ best_sim fd reg)) ∧
    (∀ (fd : Fingerprint) (reg : List ProtectedEntry) (r : MatchDecision),
      (∀ x ∈ reg, ¬ exact_eq_spec fd x) → verify fd reg = some r →
      best_sim fd reg = 85 → r.match_found = true) ∧
    (∀ (fd : Fingerprint) (reg : List ProtectedEntry) (r : MatchDecision),
      (∀ x ∈ reg, ¬ exact_eq_spec fd x) → verify fd reg = some r →
      best_sim fd reg = 849/10 → r.match_found = false ∧ r.similarity = 849/10) := by
  have main : ∀ (fd : Fingerprint) (reg : List ProtectedEntry),
      (∀ x ∈ reg, ¬ exact_eq_spec fd x) →
      ∃ r, verify fd reg = some r ∧
        r.similarity = best_sim fd reg ∧
        r.match_found = decide (85 ≤ best_sim fd reg) := by
    intro fd reg hne
    rcases reg with _ | ⟨e, rest⟩
    · refine ⟨_, rfl, by simp [best_sim], ?_⟩
      have h0 : best_sim fd [] = 0 := rfl
      have : ¬ ((85 : ℚ) ≤ best_sim fd []) := by rw [h0]; norm_num
      simp [this]
    · have hchk : ∀ x ∈ e :: rest, check_exact_match fd.sha256 (fp_of x).sha256 = false :=
        fun x hx => not_exact_of_not_spec fd x (hne x hx)
      obtain ⟨bm', bt', hscan⟩ := verify_scan_best fd (e :: rest) none 0 none hchk
      refine ⟨_, ?_, (final_decision_fields _ bm' bt').2, (final_decision_fields _ bm' bt').1⟩
      rw [verify]
      simp only [List.isEmpty_cons, Bool.false_eq_true, if_false]
      exact hscan
  refine ⟨main, ?_, ?_⟩
  · intro fd reg r hne hver hbest
    obtain ⟨r', hver', -, hm⟩ := main fd reg hne
    have hrr : r = r' := by
      rw [hver] at hver'
      exact Option.some.inj hver'
    subst hrr
    rw [hm, hbest]
    norm_num
  · intro fd reg r hne hver hbest
    obtain ⟨r', hver', hs, hm⟩ := main fd reg hne
    have hrr : r = r' := by
      rw [hver] at hver'
      exact Option.some.inj hver'
    subst hrr
    have hlt : ¬ ((85 : ℚ) ≤ 849/10) := by norm_num
    constructor
    · rw [hm, hbest]
      simp [hlt]
    · rw [hs, hbest]

/-- Witness for C3: a single entry whose perceptual hash equals the
candidate's (no exact hashes present at all). -/
theorem verify_threshold_boundary_witness :
    ∃ r, verify ⟨none, some "0123456789abcdef", none⟩
        [⟨some ⟨none, some "0123456789abcdef", none⟩, "A"⟩] = some r ∧
      r.similarity = best_sim ⟨none, some "0123456789abcdef", none⟩
        [⟨some ⟨none, some "0123456789abcdef", none⟩, "A"⟩] ∧
      r.match_found = decide ((85 : ℚ) ≤ best_sim ⟨none, some "0123456789abcdef", none⟩
        [⟨some ⟨none, some "0123456789abcdef", none⟩, "A"⟩]) :=
  verify_threshold_boundary.1 _ _ (by
    intro x hx
    simp only [List.mem_singleton] at hx
    subst hx
    rintro ⟨s, t, hs, -, -, -, -⟩
    exact Option.noConfusion hs)

end VerificationEngine

namespace VerificationEngine

theorem cps_self_16 (p : String) (hp16 : p.length = 16) :
    check_perceptual_similarity (some p) (some p) = some 100 := by
  have hne : p ≠ "" := by
    intro h
    rw [h] at hp16
    simp [String.length] at hp16
  have hst : strTruthy (some p) = true := by simp [strTruthy]; exact hne
  unfold check_perceptual_similarity
  rw [if_neg (by simp [hst])]
  simp only [Option.getD_some]
  rw [if_pos ⟨hp16, hp16⟩, hamming_count_self]
  have hq : ((p.length : ℕ) : ℚ) ≠ 0 := by rw [hp16]; norm_num
  simp only [pyDiv, if_neg hq, Nat.cast_zero, Option.bind_eq_bind', Option.some_bind]
  congr 1
  rw [zero_div]
  norm_num

theorem cfs_self (f : String) (hfne : f ≠ "") :
    check_face_similarity (some f) (some f) = some 100 := by
  have hst : strTruthy (some f) = true := by simp [strTruthy]; exact hfne
  unfold check_face_similarity
  rw [if_neg (by simp [hst])]
  simp only [Option.getD_some]
  rw [if_pos (by simp)]

/-- C4: with no exact match, when entry A's perceptual hash equals the
candidate's 16-character hash and a later entry B's biometric (face) hash
equals the candidate's, `verify` reports the first maximal result in scan
order: match_found = true, similarity = 100, match_type = "perceptual",
matched entry A (perceptual is evaluated before face, and a tie never
displaces the running best). -/
theorem verify_perceptual_tie_break (fd : Fingerprint) (A B : ProtectedEntry)
    (p f : String)
    (hp : fd.perceptual_hash = some p) (hp16 : p.length = 16)
    (hA : (fp_of A).perceptual_hash = some p)
    (hf : fd.face_embedding_hash = some f) (hfne : f ≠ "")
    (hB : (fp_of B).face_embedding_hash = some f)
    (hexA : ¬ exact_eq_spec fd A) (hexB : ¬ exact_eq_spec fd B) :
    verify fd [A, B] = some (final_decision 100 (some A) (some "perceptual")) ∧
    (final_decision 100 (some A) (some "perceptual")).match_found = true ∧
    (final_decision 100 (some A) (some "perceptual")).match_type = some "perceptual" ∧
    (final_decision 100 (some A) (some "perceptual")).similarity = 100 ∧
    (final_decision 100 (some A) (some "perceptual")).matched_fingerprint = some A := by
  have heA := not_exact_of_not_spec fd A hexA
  have heB := not_exact_of_not_spec fd B hexB
  have hstf : strTruthy (some f) = true := by simp [strTruthy]; exact hfne
  have hA_step : verify_scan fd (A :: [B]) none 0 none =
      verify_scan fd [B] (some A) 100 (some "perceptual") := by
    rw [verify_scan, if_neg (by simp [heA])]
    rw [hp, hA, cps_self_16 p hp16]
    simp only [Option.bind_eq_bind', Option.some_bind]
    rw [if_pos (by norm_num : (0 : ℚ) < 100)]
    rw [hf]
    cases hga : strTruthy (fp_of A).face_embedding_hash
    · rw [if_neg (by simp)]
    · rw [if_pos (by simp [hstf])]
      obtain ⟨qA2, hqA2, -, hA2le⟩ :=
        check_face_similarity_some (some f) ((fp_of A).face_embedding_hash)
      rw [hqA2]
      simp only [Option.bind_eq_bind', Option.some_bind]
      dsimp only
      rw [if_neg (not_lt.mpr hA2le)]
  have hB_step : verify_scan fd [B] (some A) 100 (some "perceptual") =
      some (final_decision 100 (some A) (some "perceptual")) := by
    rw [verify_scan, if_neg (by simp [heB])]
    obtain ⟨qB, hqB, -, hB1⟩ :=
      check_perceptual_similarity_some fd.perceptual_hash ((fp_of B).perceptual_hash)
    rw [hqB]
    simp only [Option.bind_eq_bind', Option.some_bind]
    rw [if_neg (not_lt.mpr hB1)]
    rw [hf, hB]
    rw [if_pos (by simp [hstf])]
    rw [cfs_self f hfne]
    simp only [Option.bind_eq_bind', Option.some_bind]
    dsimp only
    rw [if_neg (by norm_num : ¬ (100 : ℚ) < 100)]
    rfl
  refine ⟨?_, ?_, ?_, ?_, ?_⟩
  · rw [verify]
    simp only [List.isEmpty_cons, Bool.false_eq_true, if_false]
    rw [hA_step, hB_step]
  all_goals
    norm_num [final_decision, perceptual_similarity_threshold]

/-- Witness for C4 at concrete entries: candidate perceptual hash
"0123456789abcdef" equals entry A's, face hash "FACE" equals entry B's,
exact hashes all distinct. -/
theorem verify_perceptual_tie_break_witness :
    verify ⟨some "c0", some "0123456789abcdef", some "FACE"⟩
      [⟨some ⟨some "a0", some "0123456789abcdef", some "other"⟩, "A"⟩,
       ⟨some ⟨some "b0", some "zzzzzzzzzzzzzzzz", some "FACE"⟩, "B"⟩] =
      some (final_decision 100
        (some ⟨some ⟨some "a0", some "0123456789abcdef", some "other"⟩, "A"⟩)
        (some "perceptual")) ∧
    (final_decision 100
        (some ⟨some ⟨some "a0", some "0123456789abcdef", some "other"⟩, "A"⟩)
        (some "perceptual")).match_found = true ∧
    (final_decision 100
        (some ⟨some ⟨some "a0", some "0123456789abcdef", some "other"⟩, "A"⟩)
        (some "perceptual")).match_type = some "perceptual" ∧
    (final_decision 100
        (some ⟨some ⟨some "a0", some "0123456789abcdef", some "other"⟩, "A"⟩)
        (some "perceptual")).similarity = 100 ∧
    (final_decision 100
        (some ⟨some ⟨some "a0", some "0123456789abcdef", some "other"⟩, "A"⟩)
        (some "perceptual")).matched_fingerprint =
      some ⟨some ⟨some "a0", some "0123456789abcdef", some "other"⟩, "A"⟩ :=
  verify_perceptual_tie_break _ _ _ "0123456789abcdef" "FACE"
    rfl (by decide) rfl rfl (by decide) rfl
    (fun hspec => absurd ((check_exact_match_true_iff _ _).mpr hspec) (by decide))
    (fun hspec => absurd ((check_exact_match_true_iff _ _).mpr hspec) (by decide))

end VerificationEngine
